import Mathlib

/-!
Shallow embedding of the Titanium monitoring-dashboard core (the
client-side script: event bus, polling service, chart module, status
module, alert module, utility/log module) and proofs about it.

Conventions of the embedding:
* JSON snapshots are association lists from service key to an object
  whose recognized fields are `Option`-valued (absent field = `none`).
* JavaScript's `x || d` default on numeric fields is `jsOr`: it yields
  the default both when the field is absent and when it is `0` (falsy).
* DOM text contents are modelled as `String` fields of view structures;
  wall-clock timestamps are passed in as opaque strings.
-/

/-- `config` object of the script. -/
def config_refreshInterval : Nat := 2000

/-- `config.maxChartPoints`. -/
def config_maxChartPoints : Nat := 30

/-- `config.maxLogEntries`. -/
def config_maxLogEntries : Nat := 50

/-- `config.maxAlerts`. -/
def config_maxAlerts : Nat := 5

/-- The recognized fields of one per-service JSON sub-payload.
Absent fields are `none`; numbers are modelled as rationals. -/
structure ServicePayload where
  status : Option String := none
  service_status : Option String := none
  success_rate : Option ℚ := none
  avg_response_time_ms : Option ℚ := none
  requests_per_second : Option ℚ := none
  total_requests : Option ℚ := none
  hit_ratio : Option ℚ := none
  active_session_count : Option ℚ := none
deriving DecidableEq, Repr

/-- A decoded `/stats` snapshot: service key ↦ sub-payload.
A key present in the list corresponds to a (truthy) JSON object. -/
def Stats := List (String × ServicePayload)

instance : DecidableEq Stats := by unfold Stats; infer_instance

/-- `stats[key]` access. -/
def getService (s : Stats) (k : String) : Option ServicePayload :=
  List.lookup k s

/-- JavaScript `v || d` on an optional numeric field: the default is
taken when the field is absent *or* equal to `0` (both are falsy). -/
def jsOr (v : Option ℚ) (d : ℚ) : ℚ :=
  match v with
  | none => d
  | some x => if x = 0 then d else x

/-- `statusModule.serviceDisplayNames`, in object-literal insertion
order (which `for...in` follows for string keys). -/
def serviceDisplayNames : List (String × String) :=
  [("api-gateway", "API Gateway"), ("auth", "Auth Service"),
   ("user_service", "User Service"), ("blog_service", "Blog Service"),
   ("database", "Database"), ("cache", "Cache")]

/-- One entry of the server list built by `updateServerList`. -/
structure ServiceHealth where
  name : String
  isHealthy : Bool
deriving DecidableEq, Repr

/-- `serviceData.status === 'healthy' || serviceData.service_status === 'online'`. -/
def isHealthyPayload (p : ServicePayload) : Bool :=
  p.status == some "healthy" || p.service_status == some "online"

/-- `statusModule.updateServerList(stats, isLbHealthy)`: the synthetic
Load Balancer entry first, then one entry per recognized key present in
the snapshot, in display-name-table order. -/
def updateServerList (stats : Option Stats) (isLbHealthy : Bool) : List ServiceHealth :=
  let base : List ServiceHealth := [⟨"Load Balancer", isLbHealthy⟩]
  match stats with
  | none => base
  | some s =>
      base ++ serviceDisplayNames.filterMap (fun kv =>
        match getService s kv.1 with
        | some p => some ⟨kv.2, isHealthyPayload p⟩
        | none => none)

/-- The load balancer sub-payload's `success_rate` field, if present. -/
def lbSuccessRate (s : Stats) : Option ℚ :=
  (getService s "load-balancer").bind ServicePayload.success_rate

/-- The effective success rate used by the overall-status check:
`lbData?.success_rate || 100` (JS falsy default). -/
def effSuccessRate (s : Stats) : ℚ :=
  jsOr (lbSuccessRate s) 100

/-- The derived error rate: `100 - (lbData?.success_rate || 100)`. -/
def errorRateVal (s : Stats) : ℚ :=
  100 - effSuccessRate s

/-- The rational one half, in normalized form (kernel-evaluable,
unlike `1 / 2` whose `Div` instance chain is opaque to `decide`). -/
def ratHalf : ℚ := Rat.mk' 1 2 (by decide) (by decide)

/-- `Number.prototype.toFixed(1)` on a rational: one decimal digit,
rounding half away from zero. -/
def toFixed1 (q : ℚ) : String :=
  let n : Int := if 0 ≤ q then (q * 10 + ratHalf).floor else -((-q) * 10 + ratHalf).floor
  let m : Nat := n.natAbs
  (if n < 0 then "-" else "") ++ toString (m / 10) ++ "." ++ toString (m % 10)

/-- The DOM text/values written by `statusModule`; defaults are the
`setInitialState` values. -/
structure StatusView where
  overallStatus : String := "CONNECTING..."
  overallClass : String := "metric-value metric-warning"
  totalRequests : ℚ := 0
  successRateText : String := "0.0%"
  activeServices : String := "0/0"
  serverList : List ServiceHealth := []
  currentRpsText : String := "0.0"
  avgResponseTimeText : String := "0ms"
  errorRateText : String := "0.0%"
  dbStatus : String := "N/A"
  cacheHitRateText : String := "0.0%"
  activeSessions : ℚ := 0
deriving DecidableEq, Repr

/-- `statusModule.update(stats, isFetchSuccess)`.  On failure (or a
missing snapshot) only the overall status and the server list change;
on success every field is rebuilt from the snapshot. -/
def statusUpdate (view : StatusView) (stats : Option Stats) (isFetchSuccess : Bool) : StatusView :=
  match stats, isFetchSuccess with
  | some s, true =>
      let lb := getService s "load-balancer"
      let serviceStates := updateServerList (some s) true
      let healthyCount := (serviceStates.filter (fun x => x.isHealthy)).length
      let totalCount := serviceStates.length
      let dbIsHealthy := (getService s "database").bind ServicePayload.status == some "healthy"
      { view with
        totalRequests := jsOr (lb.bind ServicePayload.total_requests) 0,
        successRateText := toFixed1 (jsOr (lb.bind ServicePayload.success_rate) 0) ++ "%",
        activeServices := toString healthyCount ++ "/" ++ toString totalCount,
        serverList := serviceStates,
        overallStatus :=
          if healthyCount < totalCount then "DEGRADED"
          else if effSuccessRate s < 95 then "WARNING"
          else "HEALTHY",
        overallClass :=
          if healthyCount < totalCount then "metric-value metric-danger"
          else if effSuccessRate s < 95 then "metric-value metric-warning"
          else "metric-value metric-good",
        currentRpsText := toFixed1 (jsOr (lb.bind ServicePayload.requests_per_second) 0),
        avgResponseTimeText := toFixed1 (jsOr (lb.bind ServicePayload.avg_response_time_ms) 0) ++ "ms",
        errorRateText := toFixed1 (errorRateVal s) ++ "%",
        dbStatus := if dbIsHealthy then "ONLINE" else "OFFLINE",
        cacheHitRateText := toFixed1 (jsOr ((getService s "cache").bind ServicePayload.hit_ratio) 0) ++ "%",
        activeSessions := jsOr ((getService s "auth").bind ServicePayload.active_session_count) 0 }
  | _, _ =>
      { view with
        overallStatus := "DISCONNECTED",
        overallClass := "metric-value metric-danger",
        serverList := updateServerList none false }

/-! ## Alert module -/

/-- One rendered alert box (`<li class="alert-box alert-${type}">`). -/
structure AlertBox where
  type : String
  message : String
deriving DecidableEq, Repr

/-- JavaScript `s.toUpperCase()`, character by character (the severity
labels are plain ASCII). -/
def upperString (s : String) : String :=
  ⟨s.data.map Char.toUpper⟩

/-- The `textContent` of a rendered alert box: the element's innerHTML is
`<strong>${type.toUpperCase()}:</strong> ${message}`, whose text content
is the severity label, a colon and a space, then the message. -/
def alertTextContent (a : AlertBox) : String :=
  upperString a.type ++ ": " ++ a.message

/-- `pat` starts `hay` character for character. -/
def startsWithChars : List Char → List Char → Bool
  | [], _ => true
  | _ :: _, [] => false
  | a :: as, b :: bs => a == b && startsWithChars as bs

/-- `pat` occurs contiguously somewhere in `hay`. -/
def containsChars (pat : List Char) : List Char → Bool
  | [] => startsWithChars pat []
  | c :: rest => startsWithChars pat (c :: rest) || containsChars pat rest

/-- JavaScript `hay.includes(pat)`: substring containment. -/
def jsIncludes (hay pat : String) : Bool :=
  containsChars pat.toList hay.toList

/-- `alertModule.addAlert(type, message)` as a transformation of the
alert queue (head of the list = first child of the container): skip when
some existing box's `textContent` *contains* the new message, otherwise
insert at the head and drop the last box when over `config.maxAlerts`. -/
def addAlert (queue : List AlertBox) (type message : String) : List AlertBox :=
  if queue.any (fun a => jsIncludes (alertTextContent a) message) then queue
  else
    if ({ type := type, message := message } :: queue).length > config_maxAlerts then
      ({ type := type, message := message } :: queue).dropLast
    else
      { type := type, message := message } :: queue

/-- The alerts `alertModule.checkAlerts(stats)` submits (in submission
order) on one `statsUpdated` event, as `(type, message)` pairs. -/
def checkAlerts (stats : Stats) : List (String × String) :=
  match getService stats "load-balancer" with
  | none => []
  | some lb =>
      let a1 : List (String × String) :=
        match lb.success_rate with
        | some r => if r < 95 then [("warning", "Success rate is low: " ++ toFixed1 r ++ "%")] else []
        | none => []
      let a2 : List (String × String) :=
        match lb.avg_response_time_ms with
        | some t => if t > 500 then [("warning", "High response time: " ++ toFixed1 t ++ "ms")] else []
        | none => []
      let serviceStates := updateServerList (some stats) true
      let downServices := serviceStates.filter (fun x => !x.isHealthy)
      let a3 : List (String × String) :=
        if downServices.length > 0 then
          [("error", String.intercalate ", " (downServices.map ServiceHealth.name)
            ++ " service(s) are down.")]
        else []
      a1 ++ a2 ++ a3

/-- Fold `checkAlerts`' submissions into the queue via `addAlert`. -/
def runCheckAlerts (queue : List AlertBox) (stats : Stats) : List AlertBox :=
  (checkAlerts stats).foldl (fun q tm => addAlert q tm.1 tm.2) queue

/-! ## Chart module -/

/-- One chart's data: x-axis labels and the matching value series. -/
structure ChartData where
  labels : List String
  data : List ℚ
deriving DecidableEq, Repr

/-- The inner `updateChart` closure of `chartModule.update`: push the
label and the value, then if the label count exceeds the capacity shift
(drop) the oldest label and value from the front. -/
def updateChart (cap : Nat) (c : ChartData) (label : String) (v : ℚ) : ChartData :=
  let labels := c.labels ++ [label]
  let data := c.data ++ [v]
  if labels.length > cap then ⟨labels.tail, data.tail⟩ else ⟨labels, data⟩

/-- Iterate `updateChart` over a list of `(label, value)` insertions. -/
def updateChartAll (cap : Nat) (c : ChartData) (xs : List (String × ℚ)) : ChartData :=
  xs.foldl (fun acc p => updateChart cap acc p.1 p.2) c

/-- `chartModule.update(stats)`: one tick appends
`(now, avg_response_time_ms || 0)` to the response-time chart and
`(now, requests_per_second || 0)` to the throughput chart, both with
capacity `config.maxChartPoints`. -/
def chartTick (rt tp : ChartData) (now : String) (stats : Stats) : ChartData × ChartData :=
  let lb := getService stats "load-balancer"
  (updateChart config_maxChartPoints rt now (jsOr (lb.bind ServicePayload.avg_response_time_ms) 0),
   updateChart config_maxChartPoints tp now (jsOr (lb.bind ServicePayload.requests_per_second) 0))

/-! ## Event bus -/

/-- A subscribed handler over a handler-visible state: it either
finishes normally with an updated state or throws. -/
def HandlerFn := List String → Except String (List String)

/-- `eventBus.publish` over one topic's handler list, as
`handlers.forEach(cb => cb(data))` behaves for throwing callbacks: run
in subscription order; the first exception aborts the iteration,
keeps the state mutations made so far and propagates to the caller of
`publish` (second component `some e`). -/
def publishRun (handlers : List HandlerFn) (st : List String) : List String × Option String :=
  match handlers with
  | [] => (st, none)
  | h :: rest =>
      match h st with
      | .ok st2 => publishRun rest st2
      | .error e => (st, some e)

/-- A handler that records its name and finishes normally. -/
def recordHandler (name : String) : HandlerFn :=
  fun st => .ok (st ++ [name])

/-- A handler that throws. -/
def throwingHandler (e : String) : HandlerFn :=
  fun _ => .error e

/-! ## API service (polling lifecycle) -/

/-- The browser's interval-timer registry: currently armed interval ids
and the next id `setInterval` will hand out (browser ids start at 1). -/
structure TimerSys where
  active : List Nat
  nextId : Nat
deriving DecidableEq, Repr

/-- `clearInterval(id)`. -/
def clearIntervalSys (t : TimerSys) (id : Nat) : TimerSys :=
  { t with active := t.active.erase id }

/-- `setInterval(...)`: arms a fresh timer and returns its id. -/
def setIntervalSys (t : TimerSys) : TimerSys × Nat :=
  ({ active := t.active ++ [t.nextId], nextId := t.nextId + 1 }, t.nextId)

/-- `apiService`'s own fields (the fetch itself touches no timer). -/
structure ApiServiceState where
  monitoringEnabled : Bool
  fetchIntervalId : Option Nat
deriving DecidableEq, Repr

/-- `apiService.start()`: enable monitoring, do an immediate fetch (no
timer effect), clear the previous interval when the stored id is truthy
(`if (this.fetchIntervalId)`), then arm a new interval and store its id. -/
def apiStart (a : ApiServiceState) (t : TimerSys) : ApiServiceState × TimerSys :=
  let a1 := { a with monitoringEnabled := true }
  let t1 :=
    match a1.fetchIntervalId with
    | some id => if id = 0 then t else clearIntervalSys t id
    | none => t
  let armed := setIntervalSys t1
  ({ a1 with fetchIntervalId := some armed.2 }, armed.1)

/-- The timer-ownership invariant: the armed intervals are exactly the
one whose id `apiService` stores, stored ids are real browser ids
(positive), and unissued ids are fresh. -/
def TimerInv (a : ApiServiceState) (t : TimerSys) : Prop :=
  (match a.fetchIntervalId with
   | some i => t.active = [i] ∧ 1 ≤ i
   | none => t.active = []) ∧ 1 ≤ t.nextId

instance (a : ApiServiceState) (t : TimerSys) : Decidable (TimerInv a t) := by
  unfold TimerInv
  cases a.fetchIntervalId <;> exact inferInstance

/-! ## Dispatch wiring -/

/-- The per-topic subscriptions made by the modules' `init` functions,
in `main()`'s initialization order (chart, status, alert, controls,
utility). -/
def subscriptions : List (String × String) :=
  [("statsUpdated", "chartModule"), ("reset", "chartModule"),
   ("statsUpdated", "statusModule"), ("fetchError", "statusModule"),
   ("statsUpdated", "alertModule"),
   ("log", "utilityModule"), ("fetchError", "utilityModule")]

/-- The whole dashboard state the subscribed handlers mutate. -/
structure DashState where
  view : StatusView
  alerts : List AlertBox
  logs : List String
  rtChart : ChartData
  tpChart : ChartData
deriving DecidableEq, Repr

/-- `utilityModule.addLog`: prepend `[time] message`, evicting from the
tail past `config.maxLogEntries`. -/
def pushLog (logs : List String) (now message : String) : List String :=
  let l := ("[" ++ now ++ "] " ++ message) :: logs
  if l.length > config_maxLogEntries then l.dropLast else l

/-- Everything that runs on a `fetchError` publish, in subscription
order: `statusModule.update(null, false)` then the utility module's
error log.  (`alertModule` and `chartModule` are not subscribed.) -/
def onFetchError (now errMsg : String) (d : DashState) : DashState :=
  { d with
    view := statusUpdate d.view none false,
    logs := pushLog d.logs now ("[ERROR] " ++ errMsg) }

/-- Everything that runs on a `statsUpdated` publish, in subscription
order: chart tick, `statusModule.update(stats, true)`, then
`alertModule.checkAlerts(stats)`. -/
def onStatsUpdated (now : String) (stats : Stats) (d : DashState) : DashState :=
  let charts := chartTick d.rtChart d.tpChart now stats
  { d with
    rtChart := charts.1,
    tpChart := charts.2,
    view := statusUpdate d.view (some stats) true,
    alerts := runCheckAlerts d.alerts stats }

/-! ## Concrete snapshots used as test inputs -/

/-- The rational 99.2 (= 496/5), in normalized form. -/
def rat99p2 : ℚ := Rat.mk' 496 5 (by decide) (by decide)

/-- The spec's §8 scenario snapshot. -/
def c5stats : Stats :=
  [("load-balancer", { success_rate := some rat99p2, avg_response_time_ms := some 40,
                       requests_per_second := some 12, total_requests := some 500 }),
   ("auth", { status := some "healthy" }),
   ("database", { status := some "healthy" }),
   ("cache", { hit_ratio := some 80 })]

/-- A snapshot whose load balancer reports a success rate of exactly 0. -/
def zeroRateStats : Stats := [("load-balancer", { success_rate := some 0 })]

/-- A snapshot whose load balancer reports a success rate above 100. -/
def over100Stats : Stats := [("load-balancer", { success_rate := some 150 })]

/-- A healthy snapshot: load balancer at 99% and a healthy auth service. -/
def healthyStats : Stats :=
  [("load-balancer", { success_rate := some 99 }), ("auth", { status := some "healthy" })]

/-- A snapshot with a degraded auth service but no load-balancer entry. -/
def noLbStats : Stats := [("auth", { status := some "degraded" })]

/-- A snapshot with a load-balancer entry and a degraded auth service. -/
def downAuthStats : Stats :=
  [("load-balancer", { success_rate := some 99 }), ("auth", { status := some "degraded" })]

/-- A snapshot whose load balancer reports an 80% success rate. -/
def rate80Stats : Stats := [("load-balancer", { success_rate := some 80 })]

/-- A queue holding the warning alert for a low success rate. -/
def warnQueue : List AlertBox := [{ type := "warning", message := "Success rate is low: 80.0%" }]

/-- The down-alert message naming Load Balancer and Auth Service. -/
def longDownMsg : String := "Load Balancer, Auth Service service(s) are down."

/-- The down-alert message naming only Auth Service. -/
def shortDownMsg : String := "Auth Service service(s) are down."

/-! ## List helper lemmas -/

theorem length_filter_lt_of_exists_false {α : Type} {p : α → Bool} {l : List α}
    (a : α) (ha : a ∈ l) (hpa : p a = false) : (l.filter p).length < l.length := by
  rcases Nat.lt_or_ge (l.filter p).length l.length with h | h
  · exact h
  · exfalso
    have heq : (l.filter p).length = l.length :=
      Nat.le_antisymm (List.length_filter_le p l) h
    have hself : l.filter p = l := (List.filter_sublist l).eq_of_length heq
    have := List.filter_eq_self.mp hself a ha
    simp [hpa] at this

theorem length_filter_eq_of_forall_true {α : Type} {p : α → Bool} {l : List α}
    (h : ∀ a ∈ l, p a = true) : (l.filter p).length = l.length := by
  rw [List.filter_eq_self.mpr h]

/-! ## C1: overall-status derivation priority -/

/-- C1 (amended): on a successful snapshot the overall status follows
first-match priority DEGRADED / WARNING / HEALTHY, where the WARNING
test compares the *effective* success rate `success_rate || 100` (the
JS falsy default, taken both when the field is absent and when it is 0)
against 95; `DISCONNECTED` is never produced on the success path. -/
theorem statusUpdate_overall_priority (view : StatusView) (s : Stats) :
    ((∃ x ∈ updateServerList (some s) true, x.isHealthy = false) →
        (statusUpdate view (some s) true).overallStatus = "DEGRADED")
    ∧ ((∀ x ∈ updateServerList (some s) true, x.isHealthy = true) → effSuccessRate s < 95 →
        (statusUpdate view (some s) true).overallStatus = "WARNING")
    ∧ ((∀ x ∈ updateServerList (some s) true, x.isHealthy = true) → 95 ≤ effSuccessRate s →
        (statusUpdate view (some s) true).overallStatus = "HEALTHY")
    ∧ (statusUpdate view (some s) true).overallStatus ≠ "DISCONNECTED" := by
  have hover : (statusUpdate view (some s) true).overallStatus =
      (if ((updateServerList (some s) true).filter (fun x => x.isHealthy)).length <
            (updateServerList (some s) true).length then "DEGRADED"
       else if effSuccessRate s < 95 then "WARNING" else "HEALTHY") := rfl
  refine ⟨?_, ?_, ?_, ?_⟩
  · rintro ⟨a, ha, hfalse⟩
    rw [hover, if_pos (length_filter_lt_of_exists_false a ha hfalse)]
  · intro hall hrate
    rw [hover, if_neg (by rw [length_filter_eq_of_forall_true hall]; exact Nat.lt_irrefl _),
      if_pos hrate]
  · intro hall hrate
    rw [hover, if_neg (by rw [length_filter_eq_of_forall_true hall]; exact Nat.lt_irrefl _),
      if_neg (not_lt.mpr hrate)]
  · rw [hover]
    split_ifs <;> decide

/-- Witness for C1's amended theorem at a concrete healthy snapshot. -/
theorem statusUpdate_overall_priority_witness :
    (∀ x ∈ updateServerList (some healthyStats) true, x.isHealthy = true)
    ∧ (95 : ℚ) ≤ effSuccessRate healthyStats
    ∧ (statusUpdate {} (some healthyStats) true).overallStatus = "HEALTHY" :=
  ⟨by decide, by decide,
    (statusUpdate_overall_priority {} healthyStats).2.2.1 (by decide) (by decide)⟩

/-- C1 counterexample: with every recognized service healthy and a
*reported* success rate of 0 (which is below 95), the code yields
HEALTHY, not WARNING: the `|| 100` default swallows the falsy 0. -/
theorem overall_status_zero_rate_cex :
    lbSuccessRate zeroRateStats = some 0
    ∧ (0 : ℚ) < 95
    ∧ (∀ x ∈ updateServerList (some zeroRateStats) true, x.isHealthy = true)
    ∧ (statusUpdate {} (some zeroRateStats) true).overallStatus = "HEALTHY" := by
  refine ⟨by decide, by decide, by decide, by decide⟩

/-! ## C2: fetch-failure fallback -/

/-- C2: every `fetchError` publish — whatever the error text, clock
reading or prior state — leaves the overall status DISCONNECTED and a
server list of exactly the single unhealthy Load Balancer entry. -/
theorem fetchError_disconnected_fallback (now errMsg : String) (d : DashState) :
    (onFetchError now errMsg d).view.overallStatus = "DISCONNECTED"
    ∧ (onFetchError now errMsg d).view.serverList
        = [{ name := "Load Balancer", isHealthy := false }] :=
  ⟨rfl, rfl⟩

/-! ## C5: the spec's scenario snapshot -/

/-- C5 counterexample: on the spec's scenario snapshot the code derives
DEGRADED with a four-entry server list and a non-empty alert batch,
not HEALTHY with three entries and no alerts. -/
theorem scenario_snapshot_cex :
    (statusUpdate {} (some c5stats) true).overallStatus = "DEGRADED"
    ∧ (statusUpdate {} (some c5stats) true).serverList.length = 4
    ∧ checkAlerts c5stats ≠ [] := by
  refine ⟨by decide, by decide, by decide⟩

/-- C5 (amended): the scenario snapshot derives DEGRADED; the server
list has four entries (Load Balancer, Auth Service and Database healthy
plus Cache unhealthy, since `{hit_ratio: 80}` has neither
`status: "healthy"` nor `service_status: "online"`), three of them
healthy, and exactly one error alert naming Cache is raised. -/
theorem scenario_snapshot_amended :
    (statusUpdate {} (some c5stats) true).overallStatus = "DEGRADED"
    ∧ (statusUpdate {} (some c5stats) true).serverList =
        [{ name := "Load Balancer", isHealthy := true },
         { name := "Auth Service", isHealthy := true },
         { name := "Database", isHealthy := true },
         { name := "Cache", isHealthy := false }]
    ∧ ((statusUpdate {} (some c5stats) true).serverList.filter (fun x => x.isHealthy)).length = 3
    ∧ checkAlerts c5stats = [("error", "Cache service(s) are down.")] := by
  refine ⟨by decide, by decide, by decide, by decide⟩

/-! ## C7: derived error rate -/

/-- C7 (amended): the error rate is `100` minus the *effective* success
rate `success_rate || 100`: `100 - r` when a nonzero rate `r` is
reported, and `0` both when the field is absent and when it is reported
as `0` (the JS falsy default); no clamping is applied anywhere. -/
theorem errorRate_amended (s : Stats) :
    (∀ r : ℚ, lbSuccessRate s = some r → r ≠ 0 → errorRateVal s = 100 - r)
    ∧ ((lbSuccessRate s = none ∨ lbSuccessRate s = some 0) → errorRateVal s = 0) := by
  constructor
  · intro r hr hne
    unfold errorRateVal effSuccessRate jsOr
    rw [hr]
    simp [hne]
  · rintro (h | h) <;> unfold errorRateVal effSuccessRate jsOr <;> rw [h] <;> norm_num

/-- Witness for C7's amended theorem at a reported rate of 80. -/
theorem errorRate_amended_witness :
    lbSuccessRate rate80Stats = some 80 ∧ errorRateVal rate80Stats = 100 - 80 :=
  ⟨by decide, (errorRate_amended rate80Stats).1 80 (by decide) (by decide)⟩

/-- C7 counterexample: a *reported* success rate of 0 yields a derived
error rate of 0, not `100 - 0 = 100`; and a reported rate of 150 yields
`-50`, outside `[0, 100]`, so no clamping happens either. -/
theorem errorRate_cex :
    lbSuccessRate zeroRateStats = some 0
    ∧ errorRateVal zeroRateStats = 0
    ∧ (100 - 0 : ℚ) = 100
    ∧ (0 : ℚ) ≠ 100
    ∧ lbSuccessRate over100Stats = some 150
    ∧ errorRateVal over100Stats = -50
    ∧ (-50 : ℚ) < 0 := by
  have h0 : effSuccessRate zeroRateStats = 100 := by decide
  have h150 : effSuccessRate over100Stats = 150 := by decide
  refine ⟨by decide, ?_, by norm_num, by decide, by decide, ?_, by norm_num⟩
  · unfold errorRateVal
    rw [h0]
    norm_num
  · unfold errorRateVal
    rw [h150]
    norm_num

/-! ## C3: event-bus exception behaviour -/

/-- C3 (amended): when a handler throws, `publish` stops right there —
the state already reflects the earlier handlers' effects, the handlers
subscribed after the throwing one never run, and the exception
propagates to the publisher. -/
theorem publishRun_stops_on_throw (h : HandlerFn) (rest : List HandlerFn)
    (st : List String) (e : String) (hthrow : h st = Except.error e) :
    publishRun (h :: rest) st = (st, some e) := by
  simp [publishRun, hthrow]

/-- Witness for C3's amended theorem on a concrete handler list. -/
theorem publishRun_stops_on_throw_witness :
    publishRun [throwingHandler "halt", recordHandler "later"] [] = ([], some "halt") :=
  publishRun_stops_on_throw _ _ _ _ rfl

/-- C3 counterexample: with a throwing handler subscribed before a
recording one, the publish returns the exception to the publisher and
the later handler leaves no trace — it never ran. -/
theorem publish_throwing_handler_cex :
    (publishRun [throwingHandler "boom", recordHandler "made-it"] []).2 = some "boom"
    ∧ "made-it" ∉ (publishRun [throwingHandler "boom", recordHandler "made-it"] []).1 := by
  refine ⟨rfl, by decide⟩

/-! ## C9: start() re-arms a single timer -/

theorem apiStart_preserves (a : ApiServiceState) (t : TimerSys) (h : TimerInv a t) :
    TimerInv (apiStart a t).1 (apiStart a t).2 ∧ (apiStart a t).2.active.length = 1 := by
  obtain ⟨en, fi⟩ := a
  obtain ⟨act, nx⟩ := t
  obtain ⟨hmatch, hnext⟩ := h
  have hnx : 1 ≤ nx := hnext
  cases fi with
  | none =>
      have hact : act = [] := hmatch
      subst hact
      exact ⟨⟨⟨rfl, hnx⟩, Nat.le_succ_of_le hnx⟩, rfl⟩
  | some i =>
      have hmm : act = [i] ∧ 1 ≤ i := hmatch
      obtain ⟨hact, hi⟩ := hmm
      subst hact
      have hne : ¬ (i = 0) := by omega
      have happ : apiStart ⟨en, some i⟩ ⟨[i], nx⟩
          = (⟨true, some nx⟩, ⟨[nx], nx + 1⟩) := by
        simp [apiStart, clearIntervalSys, setIntervalSys, hne, List.erase_cons_head]
      rw [happ]
      exact ⟨⟨⟨rfl, hnx⟩, Nat.le_succ_of_le hnx⟩, rfl⟩

/-- C9: from any state satisfying the timer-ownership invariant (which
the initial state does), `start()` leaves exactly one armed interval,
and calling `start()` twice in a row still leaves exactly one — the
old timer is cleared before the new one is armed. -/
theorem apiStart_twice_single_timer (a : ApiServiceState) (t : TimerSys) (h : TimerInv a t) :
    (apiStart a t).2.active.length = 1
    ∧ (apiStart (apiStart a t).1 (apiStart a t).2).2.active.length = 1 :=
  ⟨(apiStart_preserves a t h).2,
   (apiStart_preserves _ _ (apiStart_preserves a t h).1).2⟩

/-- Witness for C9 at the page's initial state (no timer armed yet). -/
theorem apiStart_twice_single_timer_witness :
    TimerInv ⟨true, none⟩ ⟨[], 1⟩
    ∧ (apiStart (apiStart ⟨true, none⟩ ⟨[], 1⟩).1
        (apiStart ⟨true, none⟩ ⟨[], 1⟩).2).2.active.length = 1 :=
  ⟨by decide, (apiStart_twice_single_timer ⟨true, none⟩ ⟨[], 1⟩ (by decide)).2⟩

/-! ## C10: fetch failure leaves the alert queue alone -/

/-- C10: a `fetchError` publish leaves the alert queue exactly
unchanged (whatever the error text, timestamp or prior state), and the
alert module's only subscription is to `statsUpdated`. -/
theorem fetchError_alerts_unchanged (now errMsg : String) (d : DashState) :
    (onFetchError now errMsg d).alerts = d.alerts
    ∧ (subscriptions.filter (fun p => p.2 == "alertModule")).map Prod.fst = ["statsUpdated"] :=
  ⟨rfl, by decide⟩

/-! ## C6: sliding-window metric series -/

theorem updateChartAll_nil_eq_drop (cap : Nat) (xs : List (String × ℚ)) :
    updateChartAll cap ⟨[], []⟩ xs =
      ⟨(xs.map Prod.fst).drop (xs.length - cap),
       (xs.map Prod.snd).drop (xs.length - cap)⟩ := by
  induction xs using List.reverseRecOn with
  | nil => simp [updateChartAll]
  | append_singleton ys y ih =>
      rw [updateChartAll, List.foldl_append, List.foldl_cons, List.foldl_nil]
      rw [show List.foldl (fun acc p => updateChart cap acc p.1 p.2) (⟨[], []⟩ : ChartData) ys
            = updateChartAll cap ⟨[], []⟩ ys from rfl, ih]
      have hL : (ys.map Prod.fst).length = ys.length := List.length_map ys Prod.fst
      have hD : (ys.map Prod.snd).length = ys.length := List.length_map ys Prod.snd
      rcases Nat.lt_or_ge ys.length cap with hc | hc
      · have h0 : ys.length - cap = 0 := Nat.sub_eq_zero_of_le (Nat.le_of_lt hc)
        have h1 : (ys ++ [y]).length - cap = 0 := by
          simp only [List.length_append, List.length_cons, List.length_nil]
          omega
        have hneg : ¬ ((ys.map Prod.fst ++ [y.1]).length > cap) := by
          simp only [List.length_append, List.length_cons, List.length_nil, hL]
          omega
        simp only [updateChart, h0, List.drop_zero]
        rw [if_neg hneg]
        simp only [List.map_append, List.map_cons, List.map_nil, h1, List.drop_zero]
      · have hcond : ((ys.map Prod.fst).drop (ys.length - cap) ++ [y.1]).length > cap := by
          simp only [List.length_append, List.length_drop, List.length_cons, List.length_nil, hL]
          omega
        have hkL : ys.length - cap ≤ (ys.map Prod.fst).length := by omega
        have hkD : ys.length - cap ≤ (ys.map Prod.snd).length := by omega
        have hlen2 : (ys ++ [y]).length - cap = (ys.length - cap) + 1 := by
          simp only [List.length_append, List.length_cons, List.length_nil]
          omega
        simp only [updateChart]
        rw [if_pos hcond]
        simp only [List.map_append, List.map_cons, List.map_nil, hlen2]
        rw [← List.drop_append_of_le_length hkL, ← List.drop_append_of_le_length hkD,
          List.tail_drop, List.tail_drop]

/-- C6: the chart series is a sliding window: starting from an empty
series, any sequence of `updateChart` insertions of capacity `cap`
retains exactly the `cap` most recently appended labels and values in
order (all of them while there are at most `cap`); hence the length
never exceeds `cap`, and after more than `cap` insertions it is exactly
`cap`. -/
theorem metricSeries_sliding_window (cap : Nat) (xs : List (String × ℚ)) :
    updateChartAll cap ⟨[], []⟩ xs =
      ⟨(xs.map Prod.fst).drop (xs.length - cap),
       (xs.map Prod.snd).drop (xs.length - cap)⟩
    ∧ (updateChartAll cap ⟨[], []⟩ xs).data.length ≤ cap
    ∧ (updateChartAll cap ⟨[], []⟩ xs).labels.length ≤ cap
    ∧ (cap < xs.length → (updateChartAll cap ⟨[], []⟩ xs).data.length = cap) := by
  have hmain := updateChartAll_nil_eq_drop cap xs
  refine ⟨hmain, ?_, ?_, ?_⟩
  · rw [hmain]
    simp only [List.length_drop, List.length_map]
    omega
  · rw [hmain]
    simp only [List.length_drop, List.length_map]
    omega
  · intro hlt
    rw [hmain]
    simp only [List.length_drop, List.length_map]
    omega

/-- Witness for C6: three inserts into a capacity-2 series keep the two
most recent points. -/
theorem metricSeries_sliding_window_witness :
    (2 : Nat) < ([("a", 1), ("b", 2), ("c", 3)] : List (String × ℚ)).length
    ∧ (updateChartAll 2 ⟨[], []⟩ [("a", 1), ("b", 2), ("c", 3)]).data.length = 2 :=
  ⟨by decide,
   (metricSeries_sliding_window 2 [("a", 1), ("b", 2), ("c", 3)]).2.2.2 (by decide)⟩

/-! ## Substring helper lemmas -/

theorem startsWithChars_self : ∀ l : List Char, startsWithChars l l = true
  | [] => rfl
  | a :: as => by simp [startsWithChars, startsWithChars_self as]

theorem containsChars_append_self (pat : List Char) :
    ∀ pre : List Char, containsChars pat (pre ++ pat) = true
  | [] => by
      cases pat with
      | nil => rfl
      | cons c cs => simp [containsChars, startsWithChars_self]
  | d :: pre' => by
      have ih := containsChars_append_self pat pre'
      simp [containsChars, ih]

theorem jsIncludes_append_right (preS m : String) : jsIncludes (preS ++ m) m = true := by
  unfold jsIncludes
  have hdata : (preS ++ m).toList = preS.toList ++ m.toList := by
    simp [String.toList, String.data_append]
  rw [hdata]
  exact containsChars_append_self m.toList preS.toList

theorem jsIncludes_textContent (a : AlertBox) (m : String) (hm : a.message = m) :
    jsIncludes (alertTextContent a) m = true := by
  subst hm
  unfold alertTextContent
  exact jsIncludes_append_right (upperString a.type ++ ": ") a.message

/-! ## C4: alert de-duplication -/

theorem addAlert_not_found (q : List AlertBox) (t m : String)
    (hany : q.any (fun a => jsIncludes (alertTextContent a) m) = false) :
    ∃ rest, addAlert q t m = { type := t, message := m } :: rest := by
  unfold addAlert
  rw [if_neg (by simp [hany])]
  by_cases hlen : (({ type := t, message := m } : AlertBox) :: q).length > config_maxAlerts
  · rw [if_pos hlen]
    cases q with
    | nil => simp [config_maxAlerts] at hlen
    | cons b q' => exact ⟨(b :: q').dropLast, by rw [List.dropLast_cons₂]⟩
  · rw [if_neg hlen]
    exact ⟨q, rfl⟩

/-- C4 (amended): the dedup check is substring containment against each
rendered box's text (severity label plus message), not message
equality.  Still: a queue already holding an alert with the *identical*
message is returned untouched (no refresh, no reposition); submitting
the same message twice in a row changes nothing the second time; and a
message contained in no queued box's text is inserted at the head. -/
theorem addAlert_dedup_spec (q : List AlertBox) (t m : String) :
    ((∃ a ∈ q, a.message = m) → addAlert q t m = q)
    ∧ addAlert (addAlert q t m) t m = addAlert q t m
    ∧ ((∀ a ∈ q, jsIncludes (alertTextContent a) m = false) →
        ∃ rest, addAlert q t m = { type := t, message := m } :: rest) := by
  refine ⟨?_, ?_, ?_⟩
  · rintro ⟨a, ha, hm⟩
    have hany : q.any (fun a => jsIncludes (alertTextContent a) m) = true :=
      List.any_eq_true.mpr ⟨a, ha, jsIncludes_textContent a m hm⟩
    simp [addAlert, hany]
  · by_cases hany : q.any (fun a => jsIncludes (alertTextContent a) m) = true
    · simp [addAlert, hany]
    · rw [Bool.not_eq_true] at hany
      obtain ⟨rest, hrest⟩ := addAlert_not_found q t m hany
      rw [hrest]
      have hany2 : (({ type := t, message := m } : AlertBox) :: rest).any
          (fun a => jsIncludes (alertTextContent a) m) = true := by
        simp [List.any_cons, jsIncludes_textContent ⟨t, m⟩ m rfl]
      simp [addAlert, hany2]
  · intro hall
    have hany : q.any (fun a => jsIncludes (alertTextContent a) m) = false := by
      simp only [List.any_eq_false]
      intro x hx
      simp [hall x hx]
    exact addAlert_not_found q t m hany

/-- Witness for C4's amended theorem: re-submitting the identical
message leaves the queue exactly as it was. -/
theorem addAlert_dedup_spec_witness :
    (∃ a ∈ warnQueue, a.message = "Success rate is low: 80.0%")
    ∧ addAlert warnQueue "warning" "Success rate is low: 80.0%" = warnQueue :=
  ⟨by decide, (addAlert_dedup_spec warnQueue "warning" "Success rate is low: 80.0%").1 (by decide)⟩

/-- C4 counterexample: a new alert is skipped although *no* queued
alert has an identical message — its message is merely a substring of a
queued box's text (`"...Auth Service service(s) are down."` is a suffix
of the two-service message), so dedup is not by exact message text. -/
theorem addAlert_substring_skip_cex :
    longDownMsg ≠ shortDownMsg
    ∧ addAlert [{ type := "error", message := longDownMsg }] "error" shortDownMsg
        = [{ type := "error", message := longDownMsg }] := by
  refine ⟨by decide, by decide⟩

/-! ## C8: down-service error alert -/

/-- C8 (amended): when the snapshot has a load-balancer entry and some
recognized service is unhealthy, `checkAlerts` submits an error alert
whose message joins the down services' display names with `", "`. -/
theorem checkAlerts_down_services (s : Stats) (lb : ServicePayload)
    (hlb : getService s "load-balancer" = some lb)
    (x : ServiceHealth) (hx : x ∈ updateServerList (some s) true) (hxu : x.isHealthy = false) :
    ("error",
      String.intercalate ", "
        (((updateServerList (some s) true).filter (fun v => !v.isHealthy)).map ServiceHealth.name)
      ++ " service(s) are down.") ∈ checkAlerts s := by
  have hmem : x ∈ (updateServerList (some s) true).filter (fun v => !v.isHealthy) :=
    List.mem_filter.mpr ⟨hx, by simp [hxu]⟩
  have hpos : ((updateServerList (some s) true).filter (fun v => !v.isHealthy)).length > 0 :=
    List.length_pos.mpr (List.ne_nil_of_mem hmem)
  simp only [checkAlerts, hlb]
  refine List.mem_append.mpr (Or.inr ?_)
  rw [if_pos hpos]
  exact List.mem_singleton.mpr rfl

/-- Witness for C8's amended theorem: a snapshot with a load balancer
and a degraded auth service gets the "Auth Service ... down" alert. -/
theorem checkAlerts_down_services_witness :
    getService downAuthStats "load-balancer" = some { success_rate := some 99 }
    ∧ (⟨"Auth Service", false⟩ : ServiceHealth) ∈ updateServerList (some downAuthStats) true
    ∧ ("error",
        String.intercalate ", "
          (((updateServerList (some downAuthStats) true).filter
              (fun v => !v.isHealthy)).map ServiceHealth.name)
        ++ " service(s) are down.") ∈ checkAlerts downAuthStats :=
  ⟨by decide, by decide,
   checkAlerts_down_services downAuthStats { success_rate := some 99 } (by decide)
     ⟨"Auth Service", false⟩ (by decide) rfl⟩

/-- C8 counterexample: with no load-balancer entry, `checkAlerts` bails
out before the service scan and raises nothing at all, even though a
recognized service (auth) is unhealthy. -/
theorem checkAlerts_missing_lb_cex :
    (∃ x ∈ updateServerList (some noLbStats) true, x.isHealthy = false)
    ∧ checkAlerts noLbStats = [] := by
  refine ⟨⟨⟨"Auth Service", false⟩, by decide, rfl⟩, by decide⟩
